import Mathlib

/-!
Verification development for the `deepseek_client` Python library
(`src/deepseek_client/client.py`).

The client is embedded shallowly:
* JSON values become the inductive `Json`; Python floats are modelled as
  rationals (the client never does arithmetic on them, only range checks
  and pass-through, on which decimal literals agree).
* Python dicts (payloads, parsed JSON envelopes, headers) become
  association lists with dict-update semantics (`insertKey`: overwrite in
  place, append fresh keys at the end).
* The process environment is an explicit `Option String` argument.
* HTTP responses become the structure `HttpResponse`; the network exchange
  itself is a black box, so each operation is a pure function of the
  client state, the call arguments and the response the transport handed
  back, returning the post-state client together with the outgoing
  request and the handled result (explicit state passing).
* Exceptions become `Except` / option-typed error results carrying the
  exact message strings the Python code formats.
-/

namespace DeepSeekClient

/-- JSON-shaped values, as produced by Python's `json` module.
Numbers are modelled as rationals. -/
inductive Json where
  | null
  | bool (b : Bool)
  | num (q : ℚ)
  | str (s : String)
  | arr (elems : List Json)
  | obj (fields : List (String × Json))

/-- Association-list lookup, first match; Python dicts have unique keys,
so on the lists built below this agrees with `dict.__getitem__`. -/
def lookupField {α : Type} (l : List (String × α)) (k : String) : Option α :=
  (l.find? (fun p => p.1 == k)).map (fun p => p.2)

/-- Python dict-update of a single key: overwrite in place when the key is
present, append at the end when it is fresh. -/
def insertKey {α : Type} (k : String) (v : α) : List (String × α) → List (String × α)
  | [] => [(k, v)]
  | (k', v') :: rest => if k' == k then (k', v) :: rest else (k', v') :: insertKey k v rest

/-- Merging `**kwargs` into a dict literal: the extras are inserted after
the named fields, in order, each one overwriting any earlier value for
its key. -/
def mergeExtras {α : Type} (base extras : List (String × α)) : List (String × α) :=
  extras.foldl (fun acc kv => insertKey kv.1 kv.2 acc) base

/-- Python truthiness of `x or default` for an optional string argument:
`None` and the empty string both fall back to the default. -/
def pyOrStr (arg : Option String) (dflt : String) : String :=
  match arg with
  | some s => if s == "" then dflt else s
  | none => dflt

/-- Python truthiness of `x or default` for an optional numeric argument:
`None` and `0.0` (falsy!) both fall back to the default. -/
def pyOrNum (arg : Option ℚ) (dflt : ℚ) : ℚ :=
  match arg with
  | some q => if q == 0 then dflt else q
  | none => dflt

/-- Python `str.rstrip("/")`: drop trailing slashes. -/
def rstripSlash (s : String) : String :=
  ⟨(s.data.reverse.dropWhile (fun c => c == '/')).reverse⟩

/-- Substring test on character lists (needle occurs contiguously). -/
def listContainsSub (needle : List Char) : List Char → Bool
  | [] => needle.isEmpty
  | c :: rest => needle.isPrefixOf (c :: rest) || listContainsSub needle rest

/-- Substring containment `needle in hay` for strings. -/
def strContainsSub (hay needle : String) : Bool :=
  listContainsSub needle.data hay.data

/-- The client state established by `DeepSeekClient.__init__`. -/
structure Client where
  api_key : String
  base_url : String
  default_model : String
  default_temperature : ℚ
  timeout : Nat
  headers : List (String × String)

/-- The header dict built once in `__init__`. -/
def mkHeaders (key : String) : List (String × String) :=
  [("Authorization", "Bearer " ++ key),
   ("Content-Type", "application/json"),
   ("User-Agent", "deepseek-client-python/1.0.0")]

/-- The `ValueError` message raised when no API key is resolvable. -/
def apiKeyRequiredMsg : String :=
  "API key required. Set DEEPSEEK_API_KEY environment variable or provide explicitly."

/-- Embedding of `DeepSeekClient.__init__`: `self.api_key = api_key or os.getenv("DEEPSEEK_API_KEY")`
(Python `or`: an explicit empty string falls through to the environment),
then `if not self.api_key: raise ValueError(...)`; on success the base URL
is right-stripped of slashes and the headers are built from the key. -/
def initClient (api_key : Option String) (env_api_key : Option String)
    (base_url : String) (default_model : String) (default_temperature : ℚ)
    (timeout : Nat) : Except String Client :=
  let resolved : Option String :=
    match api_key with
    | some k => if k == "" then env_api_key else some k
    | none => env_api_key
  match resolved with
  | none => .error apiKeyRequiredMsg
  | some k =>
    if k == "" then .error apiKeyRequiredMsg
    else .ok { api_key := k
               base_url := rstripSlash base_url
               default_model := default_model
               default_temperature := default_temperature
               timeout := timeout
               headers := mkHeaders k }

/-- Stringification of a JSON value inside an f-string, as Python's
`str()` does: string values verbatim, `None`/`True`/`False` for
null/booleans.  Numbers and nested containers are rendered abstractly
(the client never formats such error fields in the claims under study;
Python would print their `str()` form). -/
def pyStr : Json → String
  | .str s => s
  | .null => "None"
  | .bool b => if b then "True" else "False"
  | .num q => toString q
  | .arr _ => "<list>"
  | .obj _ => "<dict>"

/-- A completed HTTP response as seen by `_handle_response`:
the numeric status code, the parsed JSON body when `response.json()`
succeeds (the provider envelope is a JSON object, modelled as an
association list), and the raw `response.text`. -/
structure HttpResponse where
  status_code : Nat
  jsonBody : Option (List (String × Json))
  text : String

/-- In requests, `Response.raise_for_status` raises `HTTPError` exactly for
4xx and 5xx status codes. -/
def isErrorStatus (status : Nat) : Bool :=
  400 ≤ status && status < 600

/-- The error string formatted by `_handle_response` on an `HTTPError`:
re-parse the body, take the `message` field (default `"Unknown error"`)
and the `code` field (default `"unknown"`); when the body is not JSON
(`ValueError` from `response.json()`), use the raw text and the code
`"parse_error"`. -/
def errorMessageOf (r : HttpResponse) : String :=
  match r.jsonBody with
  | some env =>
    let message := (lookupField env "message").getD (.str "Unknown error")
    let code := (lookupField env "code").getD (.str "unknown")
    "DeepSeek API Error " ++ toString r.status_code ++ " (" ++ pyStr code ++ "): " ++ pyStr message
  | none =>
    "DeepSeek API Error " ++ toString r.status_code ++ " (parse_error): " ++ r.text

/-- The failure modes of `_handle_response`: the re-raised `HTTPError`
carrying the formatted message, or the uncaught `ValueError` when a
success response has an unparseable JSON body. -/
inductive RespError where
  | httpError (message : String)
  | jsonDecodeError

/-- Embedding of `DeepSeekClient._handle_response`: `raise_for_status()` first (4xx/5xx
becomes the formatted `HTTPError`), then `response.json()` (a parse
failure on a success status propagates as `ValueError`). -/
def handle_response (r : HttpResponse) : Except RespError (List (String × Json)) :=
  if isErrorStatus r.status_code then
    .error (.httpError (errorMessageOf r))
  else
    match r.jsonBody with
    | some env => .ok env
    | none => .error .jsonDecodeError

/-- An outgoing HTTP request as issued by `requests.post` / `requests.get`. -/
structure Request where
  method : String
  url : String
  headers : List (String × String)
  body : Option (List (String × Json))
  timeout : Nat
  stream : Bool

/-- The payload dict built by `generate`: named fields in literal order,
then `**kwargs` merged in (later entries overwrite).  `model` and
`temperature` use Python `or` fallback to the instance defaults. -/
def build_generate_payload (c : Client) (prompt : String) (model : Option String)
    (temperature : Option ℚ) (max_tokens : ℚ) (top_p : ℚ) (presence_penalty : ℚ)
    (stream : Bool) (kwargs : List (String × Json)) : List (String × Json) :=
  mergeExtras
    [("model", .str (pyOrStr model c.default_model)),
     ("prompt", .str prompt),
     ("temperature", .num (pyOrNum temperature c.default_temperature)),
     ("max_tokens", .num max_tokens),
     ("top_p", .num top_p),
     ("presence_penalty", .num presence_penalty),
     ("stream", .bool stream)]
    kwargs

/-- The payload dict built by `chat`: identical to `generate`'s except the
`messages` field (the caller's list, passed through verbatim) replaces
`prompt`. -/
def build_chat_payload (c : Client) (messages : List Json) (model : Option String)
    (temperature : Option ℚ) (max_tokens : ℚ) (top_p : ℚ) (presence_penalty : ℚ)
    (stream : Bool) (kwargs : List (String × Json)) : List (String × Json) :=
  mergeExtras
    [("model", .str (pyOrStr model c.default_model)),
     ("messages", .arr messages),
     ("temperature", .num (pyOrNum temperature c.default_temperature)),
     ("max_tokens", .num max_tokens),
     ("top_p", .num top_p),
     ("presence_penalty", .num presence_penalty),
     ("stream", .bool stream)]
    kwargs

/-- The POST issued by `generate`: `{base}/completions`, shared headers,
configured timeout. -/
def generate_request (c : Client) (prompt : String) (model : Option String)
    (temperature : Option ℚ) (max_tokens : ℚ) (top_p : ℚ) (presence_penalty : ℚ)
    (stream : Bool) (kwargs : List (String × Json)) : Request :=
  { method := "POST"
    url := c.base_url ++ "/completions"
    headers := c.headers
    body := some (build_generate_payload c prompt model temperature max_tokens top_p
      presence_penalty stream kwargs)
    timeout := c.timeout
    stream := stream }

/-- The POST issued by `chat`: `{base}/chat/completions`, shared headers,
configured timeout. -/
def chat_request (c : Client) (messages : List Json) (model : Option String)
    (temperature : Option ℚ) (max_tokens : ℚ) (top_p : ℚ) (presence_penalty : ℚ)
    (stream : Bool) (kwargs : List (String × Json)) : Request :=
  { method := "POST"
    url := c.base_url ++ "/chat/completions"
    headers := c.headers
    body := some (build_chat_payload c messages model temperature max_tokens top_p
      presence_penalty stream kwargs)
    timeout := c.timeout
    stream := stream }

/-- The GET issued by `list_models`: `{base}/models`, shared headers,
configured timeout, no body, never streaming. -/
def list_models_request (c : Client) : Request :=
  { method := "GET"
    url := c.base_url ++ "/models"
    headers := c.headers
    body := none
    timeout := c.timeout
    stream := false }

/-- What a non-streaming vs streaming call hands back: the handled
envelope, or the raw live response object. -/
inductive GenOutcome where
  | envelope (env : List (String × Json))
  | raw (r : HttpResponse)

/-- Embedding of `DeepSeekClient.generate`, with the network exchange made explicit:
given the client state, the arguments and the response the transport
returned, produce the (unchanged) client state, the outgoing request, and
`_handle_response`'s result when `stream` is false or the raw response
when `stream` is true. -/
def generate (c : Client) (prompt : String) (model : Option String)
    (temperature : Option ℚ) (max_tokens : ℚ) (top_p : ℚ) (presence_penalty : ℚ)
    (stream : Bool) (kwargs : List (String × Json)) (resp : HttpResponse) :
    Client × Request × Except RespError GenOutcome :=
  (c,
   generate_request c prompt model temperature max_tokens top_p presence_penalty stream kwargs,
   if stream then .ok (.raw resp) else (handle_response resp).map .envelope)

/-- Embedding of `DeepSeekClient.chat`, with the network exchange made explicit
(same contract as `generate`, `messages` payload, chat endpoint). -/
def chat (c : Client) (messages : List Json) (model : Option String)
    (temperature : Option ℚ) (max_tokens : ℚ) (top_p : ℚ) (presence_penalty : ℚ)
    (stream : Bool) (kwargs : List (String × Json)) (resp : HttpResponse) :
    Client × Request × Except RespError GenOutcome :=
  (c,
   chat_request c messages model temperature max_tokens top_p presence_penalty stream kwargs,
   if stream then .ok (.raw resp) else (handle_response resp).map .envelope)

/-- Embedding of `DeepSeekClient.list_models`: GET `{base}/models`, shared handling,
then `.get("data", [])` on the envelope. -/
def list_models (c : Client) (resp : HttpResponse) :
    Client × Request × Except RespError Json :=
  (c,
   list_models_request c,
   (handle_response resp).map (fun env => (lookupField env "data").getD (.arr [])))

/-- Embedding of `DeepSeekClient.set_default_model`: unconditionally overwrite the
default model. -/
def set_default_model (c : Client) (model : String) : Client :=
  { c with default_model := model }

/-- Embedding of `DeepSeekClient.set_default_temperature`: a `ValueError` when the value
is outside `[0.0, 2.0]` (the instance is left untouched), otherwise
overwrite the default temperature.  Returned as post-state plus optional
error message. -/
def set_default_temperature (c : Client) (temperature : ℚ) : Client × Option String :=
  if 0 ≤ temperature ∧ temperature ≤ 2 then
    ({ c with default_temperature := temperature }, none)
  else
    (c, some "Temperature must be between 0.0 and 2.0")

/-- Strict UTF-8 decoding of a byte sequence, as `bytes.decode("utf-8")`:
ASCII, 2-, 3- and 4-byte sequences, rejecting stray continuation bytes,
truncated sequences, overlong encodings, surrogates and code points above
U+10FFFF. -/
def utf8Decode : List Nat → Option (List Char)
  | [] => some []
  | b :: rest =>
    if b < 128 then
      (utf8Decode rest).map (fun cs => Char.ofNat b :: cs)
    else if b < 192 then
      none
    else if b < 224 then
      match rest with
      | b1 :: rest2 =>
        if 128 ≤ b1 && b1 < 192 then
          let cp := (b - 192) * 64 + (b1 - 128)
          if 128 ≤ cp then (utf8Decode rest2).map (fun cs => Char.ofNat cp :: cs)
          else none
        else none
      | [] => none
    else if b < 240 then
      match rest with
      | b1 :: b2 :: rest3 =>
        if (128 ≤ b1 && b1 < 192) && (128 ≤ b2 && b2 < 192) then
          let cp := (b - 224) * 4096 + (b1 - 128) * 64 + (b2 - 128)
          if 2048 ≤ cp && !(55296 ≤ cp && cp ≤ 57343) then
            (utf8Decode rest3).map (fun cs => Char.ofNat cp :: cs)
          else none
        else none
      | _ => none
    else if b < 248 then
      match rest with
      | b1 :: b2 :: b3 :: rest4 =>
        if (128 ≤ b1 && b1 < 192) && (128 ≤ b2 && b2 < 192) && (128 ≤ b3 && b3 < 192) then
          let cp := (b - 240) * 262144 + (b1 - 128) * 4096 + (b2 - 128) * 64 + (b3 - 128)
          if 65536 ≤ cp && cp ≤ 1114111 then
            (utf8Decode rest4).map (fun cs => Char.ofNat cp :: cs)
          else none
        else none
      | _ => none
    else
      none

/-- Decoding `bytes.decode("utf-8")` producing a string. -/
def utf8DecodeStr (bytes : List Nat) : Option String :=
  (utf8Decode bytes).map (fun cs => ⟨cs⟩)

/-- UTF-8 encoding of one character (used to build concrete byte lines). -/
def utf8EncodeChar (c : Char) : List Nat :=
  let n := c.toNat
  if n < 128 then [n]
  else if n < 2048 then [192 + n / 64, 128 + n % 64]
  else if n < 65536 then [224 + n / 4096, 128 + n / 64 % 64, 128 + n % 64]
  else [240 + n / 262144, 128 + n / 4096 % 64, 128 + n / 64 % 64, 128 + n % 64]

/-- UTF-8 encoding of a string. -/
def utf8Encode (s : String) : List Nat :=
  (s.data.map utf8EncodeChar).flatten

/-- What the transport's `response.iter_lines()` produces next: a raw byte
line, or a `ChunkedEncodingError` raised while reading the body. -/
inductive StreamEvent where
  | line (bytes : List Nat)
  | chunkedEncodingFailure (description : String)

/-- How consumption of the generator ends. -/
inductive StreamOutcome where
  /-- The iterator `iter_lines` was exhausted normally. -/
  | done
  /-- A `ChunkedEncodingError` was wrapped and re-raised as
  `RequestException("Stream error: ...")`. -/
  | streamFailure (message : String)
  /-- The call `line.decode("utf-8")` raised `UnicodeDecodeError` (propagates
  unwrapped — not caught by the `except ChunkedEncodingError` clause). -/
  | decodeFailure
deriving DecidableEq

/-- The body of `stream_response`'s generator: for each line from
`iter_lines`, skip it when empty (falsy), otherwise yield its UTF-8
decoding; a transport failure ends the sequence with the wrapped stream
error, the lines already yielded staying produced. -/
def streamLines : List StreamEvent → List String × StreamOutcome
  | [] => ([], .done)
  | .chunkedEncodingFailure d :: _ => ([], .streamFailure ("Stream error: " ++ d))
  | .line bs :: rest =>
    if bs.isEmpty then streamLines rest
    else
      match utf8DecodeStr bs with
      | some s =>
        let r := streamLines rest
        (s :: r.1, r.2)
      | none => ([], .decodeFailure)

/-- Embedding of `DeepSeekClient.stream_response`, with state passing: the client is
untouched; the result is the fully consumed generator output. -/
def stream_response (c : Client) (events : List StreamEvent) :
    Client × List String × StreamOutcome :=
  (c, streamLines events)

/-- A concrete client used to exercise the definitions, matching the
fixture of `tests/conftest.py` style constructions. -/
def testClient : Client :=
  { api_key := "test_key"
    base_url := "https://api.deepseek.com/v1"
    default_model := "deepseek-chat"
    default_temperature := 0.7
    timeout := 30
    headers := mkHeaders "test_key" }

/-- A concrete 400 response with a parsed JSON error body, as in
`tests/test_client.py::test_api_error_handling`. -/
def badRequestResponse : HttpResponse :=
  { status_code := 400
    jsonBody := some [("message", .str "Invalid request parameters"),
                      ("code", .str "invalid_request")]
    text := "\x7b\"message\": \"Invalid request parameters\", \"code\": \"invalid_request\"\x7d" }

/-- A concrete streamed body: two non-empty SSE-framed lines with an
interleaved empty heartbeat line. -/
def sampleStreamBody : List (List Nat) :=
  [utf8Encode "data: \x7b\"content\": \"Chunk1\"\x7d",
   [],
   utf8Encode "data: \x7b\"content\": \"Chunk2\"\x7d"]

/-- The client produced by constructing with explicit credential `"K"`
and all other arguments at their defaults. -/
def clientK : Client :=
  { api_key := "K"
    base_url := "https://api.deepseek.com/v1"
    default_model := "deepseek-chat"
    default_temperature := 0.7
    timeout := 30
    headers := mkHeaders "K" }

/-- The envelope of the model-listing test: two model descriptors under
`data`. -/
def twoModelsEnv : List (String × Json) :=
  [("data", .arr [.obj [("id", .str "model1")], .obj [("id", .str "model2")]])]

/-! Helper lemmas about dict update and merging. -/

theorem lookupField_cons_self {α : Type} (l : List (String × α)) (k : String) (v : α) :
    lookupField ((k, v) :: l) k = some v := by
  unfold lookupField
  rw [List.find?_cons_of_pos _ (by simp)]
  rfl

theorem lookupField_cons_ne {α : Type} (l : List (String × α)) (k' k : String) (v : α)
    (h : k' ≠ k) : lookupField ((k', v) :: l) k = lookupField l k := by
  unfold lookupField
  rw [List.find?_cons_of_neg _ (by simp [h])]

theorem lookupField_insertKey_self {α : Type} (l : List (String × α)) (k : String) (v : α) :
    lookupField (insertKey k v l) k = some v := by
  induction l with
  | nil => simpa [insertKey] using lookupField_cons_self [] k v
  | cons p rest ih =>
    obtain ⟨k', v'⟩ := p
    by_cases h : k' = k
    · subst h
      simp only [insertKey, beq_self_eq_true, if_pos]
      exact lookupField_cons_self rest k' v
    · simp only [insertKey, beq_iff_eq, if_neg h]
      rw [lookupField_cons_ne _ _ _ _ h]
      exact ih

theorem lookupField_insertKey_ne {α : Type} (l : List (String × α)) (k' k : String) (v : α)
    (h : k' ≠ k) : lookupField (insertKey k' v l) k = lookupField l k := by
  induction l with
  | nil =>
    show lookupField [(k', v)] k = lookupField [] k
    rw [lookupField_cons_ne _ _ _ _ h]
  | cons p rest ih =>
    obtain ⟨k₀, v₀⟩ := p
    by_cases h₀ : k₀ = k'
    · subst h₀
      simp only [insertKey, beq_self_eq_true, if_pos]
      rw [lookupField_cons_ne _ _ _ _ h, lookupField_cons_ne _ _ _ _ h]
    · simp only [insertKey, beq_iff_eq, if_neg h₀]
      by_cases hk : k₀ = k
      · subst hk
        unfold lookupField
        rw [List.find?_cons_of_pos _ (by simp), List.find?_cons_of_pos _ (by simp)]
      · rw [lookupField_cons_ne _ _ _ _ hk, lookupField_cons_ne _ _ _ _ hk]
        exact ih

theorem lookupField_mergeExtras_notMem {α : Type} (extras : List (String × α))
    (base : List (String × α)) (k : String) (h : k ∉ extras.map Prod.fst) :
    lookupField (mergeExtras base extras) k = lookupField base k := by
  induction extras generalizing base with
  | nil => rfl
  | cons p rest ih =>
    simp only [List.map_cons, List.mem_cons, not_or] at h
    have : mergeExtras base (p :: rest) = mergeExtras (insertKey p.1 p.2 base) rest := rfl
    rw [this, ih _ h.2, lookupField_insertKey_ne _ _ _ _ (fun hq => h.1 hq.symm)]

theorem lookupField_mergeExtras_mem {α : Type} (extras : List (String × α))
    (base : List (String × α)) (k : String) (v : α)
    (hnd : (extras.map Prod.fst).Nodup) (h : (k, v) ∈ extras) :
    lookupField (mergeExtras base extras) k = some v := by
  induction extras generalizing base with
  | nil => cases h
  | cons p rest ih =>
    simp only [List.map_cons, List.nodup_cons] at hnd
    have hstep : mergeExtras base (p :: rest) = mergeExtras (insertKey p.1 p.2 base) rest := rfl
    rcases List.mem_cons.mp h with hp | hp
    · subst hp
      have hk : (k : String) ∉ rest.map Prod.fst := hnd.1
      rw [hstep, lookupField_mergeExtras_notMem _ _ _ hk, lookupField_insertKey_self]
    · rw [hstep]
      exact ih (insertKey p.1 p.2 base) hnd.2 hp

/-! Helper lemma about consuming the streaming generator. -/

theorem streamLines_append_lines (lines : List (List Nat)) (tail : List StreamEvent)
    (h : ∀ l ∈ lines, l ≠ [] → (utf8DecodeStr l).isSome = true) :
    streamLines (lines.map .line ++ tail) =
      ((lines.filter (fun l => !l.isEmpty)).filterMap utf8DecodeStr ++ (streamLines tail).1,
       (streamLines tail).2) := by
  induction lines with
  | nil => simp [streamLines]
  | cons l rest ih =>
    have hrest : ∀ l ∈ rest, l ≠ [] → (utf8DecodeStr l).isSome = true :=
      fun x hx => h x (List.mem_cons_of_mem _ hx)
    cases hl : l.isEmpty with
    | true =>
      have hnil : l = [] := by
        cases l with
        | nil => rfl
        | cons a as => simp [List.isEmpty] at hl
      subst hnil
      have h1 : streamLines (List.map StreamEvent.line ([] :: rest) ++ tail) =
          streamLines (List.map StreamEvent.line rest ++ tail) := rfl
      rw [h1, ih hrest]
      simp [List.filter_cons]
    | false =>
      have hne : l ≠ [] := fun hq => by simp [hq, List.isEmpty] at hl
      obtain ⟨s, hs⟩ := Option.isSome_iff_exists.mp (h l (List.mem_cons_self _ _) hne)
      have h1 : streamLines (List.map StreamEvent.line (l :: rest) ++ tail) =
          (s :: (streamLines (List.map StreamEvent.line rest ++ tail)).1,
           (streamLines (List.map StreamEvent.line rest ++ tail)).2) := by
        show streamLines (.line l :: (List.map StreamEvent.line rest ++ tail)) = _
        rw [streamLines, hl, hs]
        rfl
      rw [h1, ih hrest]
      simp [List.filter_cons, hl, List.filterMap_cons, hs]

/-! Claim theorems. -/

/-- C1 (counterexample): the claim states the API error message is
formatted exactly as `"API Error <status> (<code>): <message>"`.  On the
400 response of the error-handling test, the code produces
`"DeepSeek API Error 400 (invalid_request): Invalid request parameters"`,
which is not that string: the code prepends the fixed `"DeepSeek "`
prefix. -/
theorem generate_error_message_not_bare_api_error :
    (generate testClient "Test" none none 1024 1 0 false [] badRequestResponse).2.2
      = .error (.httpError "DeepSeek API Error 400 (invalid_request): Invalid request parameters")
    ∧ "DeepSeek API Error 400 (invalid_request): Invalid request parameters"
      ≠ "API Error 400 (invalid_request): Invalid request parameters" := by
  exact ⟨rfl, by decide⟩

/-- C1 (amended): for every non-streaming `generate`, `chat` or
`list_models` call whose response has an error status (4xx/5xx, the codes
`raise_for_status` flags), the call fails with an `HTTPError` whose single
message string is `"DeepSeek API Error <status> (<code>): <message>"`,
where `<message>` is the body's JSON `message` field (default
`"Unknown error"`), `<code>` is the body's `code` field (default
`"unknown"`), and, when the body is not parseable JSON, `<message>` is the
raw response text and `<code>` is `"parse_error"`; the message is
literally identical across the three operations. -/
theorem nonstreaming_error_message_format (c : Client) (r : HttpResponse)
    (hlo : 400 ≤ r.status_code) (hhi : r.status_code < 600)
    (prompt : String) (messages : List Json) (model : Option String)
    (temperature : Option ℚ) (max_tokens top_p presence_penalty : ℚ)
    (kwargs : List (String × Json)) :
    ∃ m : String,
      (generate c prompt model temperature max_tokens top_p presence_penalty false kwargs r).2.2
        = .error (.httpError m) ∧
      (chat c messages model temperature max_tokens top_p presence_penalty false kwargs r).2.2
        = .error (.httpError m) ∧
      (list_models c r).2.2 = .error (.httpError m) ∧
      m = (match r.jsonBody with
           | some env =>
             "DeepSeek API Error " ++ toString r.status_code ++ " ("
               ++ pyStr ((lookupField env "code").getD (.str "unknown")) ++ "): "
               ++ pyStr ((lookupField env "message").getD (.str "Unknown error"))
           | none =>
             "DeepSeek API Error " ++ toString r.status_code ++ " (parse_error): " ++ r.text) := by
  have herr : isErrorStatus r.status_code = true := by
    unfold isErrorStatus
    simp only [Bool.and_eq_true, decide_eq_true_eq]
    exact ⟨hlo, hhi⟩
  have hhr : handle_response r = .error (.httpError (errorMessageOf r)) := by
    unfold handle_response
    rw [herr]
    rfl
  refine ⟨errorMessageOf r, ?_, ?_, ?_, ?_⟩
  · simp [generate, hhr, Except.map]
  · simp [chat, hhr, Except.map]
  · simp [list_models, hhr, Except.map]
  · unfold errorMessageOf
    cases r.jsonBody <;> rfl

/-- Witness for C1 (amended): the theorem applied to the 400 test
response, with both status-range hypotheses discharged. -/
theorem nonstreaming_error_message_format_witness :
    400 ≤ badRequestResponse.status_code ∧ badRequestResponse.status_code < 600 ∧
    ∃ m : String,
      (generate testClient "Test" none none 1024 1 0 false [] badRequestResponse).2.2
        = .error (.httpError m) ∧
      (chat testClient [] none none 1024 1 0 false [] badRequestResponse).2.2
        = .error (.httpError m) ∧
      (list_models testClient badRequestResponse).2.2 = .error (.httpError m) ∧
      m = (match badRequestResponse.jsonBody with
           | some env =>
             "DeepSeek API Error " ++ toString badRequestResponse.status_code ++ " ("
               ++ pyStr ((lookupField env "code").getD (.str "unknown")) ++ "): "
               ++ pyStr ((lookupField env "message").getD (.str "Unknown error"))
           | none =>
             "DeepSeek API Error " ++ toString badRequestResponse.status_code
               ++ " (parse_error): " ++ badRequestResponse.text) :=
  ⟨by decide, by decide,
   nonstreaming_error_message_format testClient badRequestResponse (by decide) (by decide)
     "Test" [] none none 1024 1 0 []⟩

/-- C2: consuming a stream whose transport delivers a finite sequence of
raw byte lines yields exactly the non-empty lines, UTF-8 decoded and
otherwise unmodified (the framing prefix is preserved because the decoded
bytes are yielded as-is), in order; empty lines are skipped, and the
sequence ends normally when the transport's lines end. -/
theorem stream_yields_nonempty_lines (c : Client) (lines : List (List Nat))
    (h : ∀ l ∈ lines, l ≠ [] → (utf8DecodeStr l).isSome = true) :
    stream_response c (lines.map .line) =
      (c, (lines.filter (fun l => !l.isEmpty)).filterMap utf8DecodeStr, .done) := by
  show (c, streamLines (lines.map .line)) = _
  have h1 := streamLines_append_lines lines [] h
  rw [List.append_nil] at h1
  rw [h1]
  simp [streamLines]

/-- Witness for C2: two SSE-framed lines with an interleaved empty line;
the two lines come out verbatim, prefix included, and the empty line is
skipped. -/
theorem stream_yields_nonempty_lines_witness :
    (∀ l ∈ sampleStreamBody, l ≠ [] → (utf8DecodeStr l).isSome = true) ∧
    stream_response testClient (sampleStreamBody.map .line) =
      (testClient,
       ["data: \x7b\"content\": \"Chunk1\"\x7d", "data: \x7b\"content\": \"Chunk2\"\x7d"],
       .done) := by
  refine ⟨by decide, ?_⟩
  rw [stream_yields_nonempty_lines testClient sampleStreamBody (by decide)]
  rfl

/-- C3 (code evaluated at the failing input): with all defaults,
`generate(prompt="Test prompt")` builds exactly the payload the claim
lists; but `generate(prompt="Test prompt", temperature=0.0)` — an
explicitly supplied temperature inside the valid range `[0.0, 2.0]` —
sends the instance default `0.7` instead of `0.0`, because the code's
`temperature or self.default_temperature` treats `0.0` as falsy. -/
theorem generate_payload_falsy_temperature :
    build_generate_payload testClient "Test prompt" none none 1024 1 0 false [] =
      [("model", .str "deepseek-chat"), ("prompt", .str "Test prompt"),
       ("temperature", .num 0.7), ("max_tokens", .num 1024), ("top_p", .num 1),
       ("presence_penalty", .num 0), ("stream", .bool false)] ∧
    lookupField
        (build_generate_payload testClient "Test prompt" none (some 0) 1024 1 0 false [])
        "temperature"
      = some (.num 0.7) ∧
    (0.7 : ℚ) ≠ 0 := by
  exact ⟨rfl, rfl, by norm_num⟩

/-- C4: caller-supplied extra fields are merged into the `generate` and
`chat` payloads after the named fields: an extra whose key collides with a
computed field ends up as the payload's value for that key (overwriting
the computed one), an extra with a fresh key appears with its supplied
value, and keys not touched by the extras keep the value they have in the
extras-free payload. -/
theorem payload_extras_override (c : Client) (prompt : String) (messages : List Json)
    (model : Option String) (temperature : Option ℚ)
    (max_tokens top_p presence_penalty : ℚ) (stream : Bool)
    (kwargs : List (String × Json)) (k : String)
    (hnd : (kwargs.map Prod.fst).Nodup) :
    (∀ v, (k, v) ∈ kwargs →
       lookupField
           (build_generate_payload c prompt model temperature max_tokens top_p
             presence_penalty stream kwargs) k = some v ∧
       lookupField
           (build_chat_payload c messages model temperature max_tokens top_p
             presence_penalty stream kwargs) k = some v) ∧
    (k ∉ kwargs.map Prod.fst →
       lookupField
           (build_generate_payload c prompt model temperature max_tokens top_p
             presence_penalty stream kwargs) k =
         lookupField
           (build_generate_payload c prompt model temperature max_tokens top_p
             presence_penalty stream []) k ∧
       lookupField
           (build_chat_payload c messages model temperature max_tokens top_p
             presence_penalty stream kwargs) k =
         lookupField
           (build_chat_payload c messages model temperature max_tokens top_p
             presence_penalty stream []) k) := by
  constructor
  · intro v hv
    exact ⟨lookupField_mergeExtras_mem _ _ _ _ hnd hv,
           lookupField_mergeExtras_mem _ _ _ _ hnd hv⟩
  · intro hk
    exact ⟨lookupField_mergeExtras_notMem _ _ _ hk,
           lookupField_mergeExtras_notMem _ _ _ hk⟩

/-- Witness for C4: the extras `temperature=0.9` (colliding) and
`logprobs=5` (fresh) land in the `generate` payload with their supplied
values, and an untouched computed key (`model`) keeps its value. -/
theorem payload_extras_override_witness :
    (([("temperature", Json.num 0.9), ("logprobs", Json.num 5)].map Prod.fst).Nodup ∧
     ("temperature", Json.num 0.9) ∈ [("temperature", Json.num 0.9), ("logprobs", Json.num 5)] ∧
     ("logprobs", Json.num 5) ∈ [("temperature", Json.num 0.9), ("logprobs", Json.num 5)] ∧
     "model" ∉ [("temperature", Json.num 0.9), ("logprobs", Json.num 5)].map Prod.fst) ∧
    lookupField
        (build_generate_payload testClient "p" none none 1024 1 0 false
          [("temperature", Json.num 0.9), ("logprobs", Json.num 5)]) "temperature"
      = some (.num 0.9) ∧
    lookupField
        (build_generate_payload testClient "p" none none 1024 1 0 false
          [("temperature", Json.num 0.9), ("logprobs", Json.num 5)]) "logprobs"
      = some (.num 5) ∧
    lookupField
        (build_generate_payload testClient "p" none none 1024 1 0 false
          [("temperature", Json.num 0.9), ("logprobs", Json.num 5)]) "model"
      = lookupField (build_generate_payload testClient "p" none none 1024 1 0 false []) "model" := by
  have hnd : (([("temperature", Json.num 0.9), ("logprobs", Json.num 5)]).map Prod.fst).Nodup := by
    simp
  have h := payload_extras_override testClient "p" [] none none 1024 1 0 false
    [("temperature", Json.num 0.9), ("logprobs", Json.num 5)] "temperature" hnd
  have h2 := payload_extras_override testClient "p" [] none none 1024 1 0 false
    [("temperature", Json.num 0.9), ("logprobs", Json.num 5)] "logprobs" hnd
  have h3 := payload_extras_override testClient "p" [] none none 1024 1 0 false
    [("temperature", Json.num 0.9), ("logprobs", Json.num 5)] "model" hnd
  refine ⟨⟨hnd, List.mem_cons_self _ _, List.mem_cons_of_mem _ (List.mem_cons_self _ _), by simp⟩,
          (h.1 _ (List.mem_cons_self _ _)).1,
          (h2.1 _ (List.mem_cons_of_mem _ (List.mem_cons_self _ _))).1,
          (h3.2 (by simp)).1⟩

/-- C5: when the transport raises a mid-stream `ChunkedEncodingError`
after delivering some lines, consumption fails with the wrapped
`RequestException` message `"Stream error: <description>"`; the non-empty
lines delivered before the failure are still the ones yielded (no
rollback), and nothing after the failure is consumed (no recovery or
resumption: the events past the failure are ignored). -/
theorem stream_failure_wraps_transport_error (c : Client) (lines : List (List Nat))
    (d : String) (tail : List StreamEvent)
    (h : ∀ l ∈ lines, l ≠ [] → (utf8DecodeStr l).isSome = true) :
    stream_response c (lines.map .line ++ .chunkedEncodingFailure d :: tail) =
      (c, (lines.filter (fun l => !l.isEmpty)).filterMap utf8DecodeStr,
       .streamFailure ("Stream error: " ++ d)) := by
  show (c, streamLines _) = _
  rw [streamLines_append_lines lines _ h]
  simp [streamLines]

/-- Witness for C5: the sample body's first two events are delivered, the
transport then fails with an invalid-chunk-length description; the lines
already yielded stay, the error message wraps the description, and a line
after the failure is never yielded. -/
theorem stream_failure_wraps_transport_error_witness :
    (∀ l ∈ sampleStreamBody, l ≠ [] → (utf8DecodeStr l).isSome = true) ∧
    stream_response testClient
        (sampleStreamBody.map .line ++
          .chunkedEncodingFailure "InvalidChunkLength(got length b'', 0 bytes read)" ::
            [.line (utf8Encode "data: late")]) =
      (testClient,
       ["data: \x7b\"content\": \"Chunk1\"\x7d", "data: \x7b\"content\": \"Chunk2\"\x7d"],
       .streamFailure
         "Stream error: InvalidChunkLength(got length b'', 0 bytes read)") := by
  refine ⟨by decide, ?_⟩
  rw [stream_failure_wraps_transport_error testClient sampleStreamBody _ _ (by decide)]
  rfl

/-- C6: constructing with no explicit credential and no environment
credential fails with a `ValueError` whose message contains
`"API key required"` and produces no client; constructing with a
non-empty explicit credential succeeds, and the result does not depend on
the environment at all. -/
theorem init_requires_api_key (base_url default_model : String)
    (default_temperature : ℚ) (timeout : Nat) (k : String) (env env' : Option String)
    (hk : k ≠ "") :
    (∃ msg, initClient none none base_url default_model default_temperature timeout
        = .error msg ∧ strContainsSub msg "API key required" = true) ∧
    initClient (some k) env base_url default_model default_temperature timeout =
      initClient (some k) env' base_url default_model default_temperature timeout ∧
    ∃ cl, initClient (some k) env base_url default_model default_temperature timeout
        = .ok cl := by
  have hbeq : (k == "") = false := beq_eq_false_iff_ne.mpr hk
  refine ⟨⟨apiKeyRequiredMsg, rfl, by decide⟩, ?_, ?_⟩
  · unfold initClient
    simp [hbeq]
  · unfold initClient
    simp [hbeq]

/-- Witness for C6: the theorem at credential `"K"` and two different
environments. -/
theorem init_requires_api_key_witness :
    ("K" : String) ≠ "" ∧
    ((∃ msg, initClient none none "https://api.deepseek.com/v1" "deepseek-chat" 0.7 30
        = .error msg ∧ strContainsSub msg "API key required" = true) ∧
     initClient (some "K") none "https://api.deepseek.com/v1" "deepseek-chat" 0.7 30 =
       initClient (some "K") (some "ENVKEY") "https://api.deepseek.com/v1" "deepseek-chat" 0.7 30 ∧
     ∃ cl, initClient (some "K") none "https://api.deepseek.com/v1" "deepseek-chat" 0.7 30
        = .ok cl) :=
  ⟨by decide,
   init_requires_api_key "https://api.deepseek.com/v1" "deepseek-chat" 0.7 30 "K"
     none (some "ENVKEY") (by decide)⟩

/-- C7: `set_default_temperature(v)` fails — with the `ValueError` message
`"Temperature must be between 0.0 and 2.0"`, which contains
`"between 0.0 and 2.0"` — exactly when `v` is outside `[0.0, 2.0]`; when
`v` is in range the call succeeds and every later `generate` or `chat`
call without an explicit temperature (and no temperature extra) carries
`v` in its payload. -/
theorem set_default_temperature_range (c : Client) (t : ℚ) :
    ((set_default_temperature c t).2 ≠ none ↔ ¬(0 ≤ t ∧ t ≤ 2)) ∧
    (∀ msg, (set_default_temperature c t).2 = some msg →
       strContainsSub msg "between 0.0 and 2.0" = true) ∧
    (0 ≤ t → t ≤ 2 →
       (set_default_temperature c t).2 = none ∧
       ∀ (prompt : String) (messages : List Json) (model : Option String)
         (max_tokens top_p presence_penalty : ℚ) (stream : Bool),
         lookupField
             (build_generate_payload (set_default_temperature c t).1 prompt model none
               max_tokens top_p presence_penalty stream []) "temperature"
           = some (.num t) ∧
         lookupField
             (build_chat_payload (set_default_temperature c t).1 messages model none
               max_tokens top_p presence_penalty stream []) "temperature"
           = some (.num t)) := by
  by_cases h : 0 ≤ t ∧ t ≤ 2
  · unfold set_default_temperature
    rw [if_pos h]
    refine ⟨by simpa using h, by simp, fun _ _ => ⟨rfl, fun prompt messages model mt tp pp st => ⟨?_, ?_⟩⟩⟩
    · rfl
    · rfl
  · unfold set_default_temperature
    rw [if_neg h]
    refine ⟨by simpa using h, ?_, fun h1 h2 => absurd ⟨h1, h2⟩ h⟩
    intro msg hmsg
    obtain rfl : ("Temperature must be between 0.0 and 2.0" : String) = msg :=
      Option.some_injective _ hmsg
    decide

/-- Witness for C7: `2.1` is rejected with the range message and `1.5` is
accepted, after which a default-temperature `generate` payload carries
`1.5`. -/
theorem set_default_temperature_range_witness :
    ((set_default_temperature testClient 2.1).2 ≠ none ↔ ¬((0:ℚ) ≤ 2.1 ∧ (2.1:ℚ) ≤ 2)) ∧
    ((0:ℚ) ≤ 1.5 ∧ (1.5:ℚ) ≤ 2) ∧
    (set_default_temperature testClient 1.5).2 = none ∧
    lookupField
        (build_generate_payload (set_default_temperature testClient 1.5).1 "p" none none
          1024 1 0 false []) "temperature"
      = some (.num 1.5) :=
  ⟨(set_default_temperature_range testClient 2.1).1,
   ⟨by norm_num, by norm_num⟩,
   ((set_default_temperature_range testClient 1.5).2.2 (by norm_num) (by norm_num)).1,
   (((set_default_temperature_range testClient 1.5).2.2 (by norm_num) (by norm_num)).2
     "p" [] none 1024 1 0 false).1⟩

/-- C8: a successful `list_models` call issues a GET to `{base}/models`
with the shared headers and configured timeout and returns exactly the
value of the envelope's top-level `data` key (hence in its original
order), or the empty list when that key is absent. -/
theorem list_models_returns_data (c : Client) (r : HttpResponse)
    (env : List (String × Json))
    (hstatus : isErrorStatus r.status_code = false) (hbody : r.jsonBody = some env) :
    (list_models c r).2.1 =
      { method := "GET", url := c.base_url ++ "/models", headers := c.headers,
        body := none, timeout := c.timeout, stream := false } ∧
    (∀ d, lookupField env "data" = some d → (list_models c r).2.2 = .ok d) ∧
    (lookupField env "data" = none → (list_models c r).2.2 = .ok (.arr [])) := by
  have hok : handle_response r = .ok env := by
    simp [handle_response, hstatus, hbody]
  refine ⟨rfl, ?_, ?_⟩
  · intro d hd
    simp [list_models, hok, Except.map, hd]
  · intro hd
    simp [list_models, hok, Except.map, hd]

/-- Witness for C8: against the envelope
`{"data": [{"id": "model1"}, {"id": "model2"}]}` on a 200 response, the
returned value is exactly that two-descriptor list, in order, and the
request is the GET described by the claim. -/
theorem list_models_returns_data_witness :
    isErrorStatus (200 : Nat) = false ∧
    (HttpResponse.mk 200 (some twoModelsEnv) "").jsonBody = some twoModelsEnv ∧
    lookupField twoModelsEnv "data"
      = some (.arr [.obj [("id", .str "model1")], .obj [("id", .str "model2")]]) ∧
    (list_models testClient (HttpResponse.mk 200 (some twoModelsEnv) "")).2.2
      = .ok (.arr [.obj [("id", .str "model1")], .obj [("id", .str "model2")]]) ∧
    (list_models testClient (HttpResponse.mk 200 (some twoModelsEnv) "")).2.1 =
      { method := "GET", url := "https://api.deepseek.com/v1/models",
        headers := testClient.headers, body := none, timeout := 30, stream := false } :=
  ⟨by decide, rfl, rfl,
   (list_models_returns_data testClient (HttpResponse.mk 200 (some twoModelsEnv) "")
       twoModelsEnv (by decide) rfl).2.1 _ rfl,
   (list_models_returns_data testClient (HttpResponse.mk 200 (some twoModelsEnv) "")
       twoModelsEnv (by decide) rfl).1⟩

/-- C9: every successfully constructed client holds a non-empty
credential and an authorization header equal to the bearer prefix
concatenated with it; passing an empty explicit credential behaves
exactly like passing none (environment fallback included). -/
theorem constructed_client_key_invariant (api_key env : Option String)
    (base_url default_model : String) (default_temperature : ℚ) (timeout : Nat)
    (c : Client)
    (h : initClient api_key env base_url default_model default_temperature timeout = .ok c) :
    c.api_key ≠ "" ∧
    lookupField c.headers "Authorization" = some ("Bearer " ++ c.api_key) ∧
    initClient (some "") env base_url default_model default_temperature timeout =
      initClient none env base_url default_model default_temperature timeout := by
  simp only [initClient] at h
  split at h
  · exact absurd h (by simp)
  next k heq =>
    split at h
    · exact absurd h (by simp)
    next hcond =>
      injection h with h'
      subst h'
      refine ⟨?_, rfl, rfl⟩
      intro hq
      exact hcond (beq_iff_eq.mpr hq)

/-- Witness for C9: constructing with `"K"` succeeds with the expected
client state, whose invariants the theorem then yields. -/
theorem constructed_client_key_invariant_witness :
    initClient (some "K") none "https://api.deepseek.com/v1" "deepseek-chat" 0.7 30
      = .ok clientK ∧
    (clientK.api_key ≠ "" ∧
     lookupField clientK.headers "Authorization" = some ("Bearer " ++ clientK.api_key) ∧
     initClient (some "") none "https://api.deepseek.com/v1" "deepseek-chat" 0.7 30 =
       initClient none none "https://api.deepseek.com/v1" "deepseek-chat" 0.7 30) :=
  ⟨rfl,
   constructed_client_key_invariant (some "K") none "https://api.deepseek.com/v1"
     "deepseek-chat" 0.7 30 clientK rfl⟩

/-- C10: configuration is immutable except through the two mutators:
`generate`, `chat`, `list_models` and stream consumption leave the client
state untouched; `set_default_model` changes only the default model;
`set_default_temperature` changes only the default temperature, and
leaves the state entirely unchanged when it fails its range check. -/
theorem client_config_frame (c : Client) :
    (∀ (prompt : String) (model : Option String) (temperature : Option ℚ)
       (max_tokens top_p presence_penalty : ℚ) (stream : Bool)
       (kwargs : List (String × Json)) (resp : HttpResponse),
       (generate c prompt model temperature max_tokens top_p presence_penalty
         stream kwargs resp).1 = c) ∧
    (∀ (messages : List Json) (model : Option String) (temperature : Option ℚ)
       (max_tokens top_p presence_penalty : ℚ) (stream : Bool)
       (kwargs : List (String × Json)) (resp : HttpResponse),
       (chat c messages model temperature max_tokens top_p presence_penalty
         stream kwargs resp).1 = c) ∧
    (∀ resp, (list_models c resp).1 = c) ∧
    (∀ events, (stream_response c events).1 = c) ∧
    (∀ m, (set_default_model c m).default_model = m ∧
       (set_default_model c m).api_key = c.api_key ∧
       (set_default_model c m).base_url = c.base_url ∧
       (set_default_model c m).default_temperature = c.default_temperature ∧
       (set_default_model c m).timeout = c.timeout ∧
       (set_default_model c m).headers = c.headers) ∧
    (∀ t, ((0 ≤ t ∧ t ≤ 2) → (set_default_temperature c t).1.default_temperature = t) ∧
       (¬(0 ≤ t ∧ t ≤ 2) → (set_default_temperature c t).1 = c) ∧
       (set_default_temperature c t).1.api_key = c.api_key ∧
       (set_default_temperature c t).1.base_url = c.base_url ∧
       (set_default_temperature c t).1.default_model = c.default_model ∧
       (set_default_temperature c t).1.timeout = c.timeout ∧
       (set_default_temperature c t).1.headers = c.headers) := by
  refine ⟨fun _ _ _ _ _ _ _ _ _ => rfl, fun _ _ _ _ _ _ _ _ _ => rfl,
          fun _ => rfl, fun _ => rfl,
          fun m => ⟨rfl, rfl, rfl, rfl, rfl, rfl⟩, fun t => ?_⟩
  by_cases h : 0 ≤ t ∧ t ≤ 2
  · unfold set_default_temperature
    rw [if_pos h]
    exact ⟨fun _ => rfl, fun hq => absurd h hq, rfl, rfl, rfl, rfl, rfl⟩
  · unfold set_default_temperature
    rw [if_neg h]
    exact ⟨fun hq => absurd hq h, fun _ => rfl, rfl, rfl, rfl, rfl, rfl⟩

/-- Witness for C10: the frame conditions at concrete inputs, including
an out-of-range temperature (5) leaving the client unchanged and an
in-range one (1) changing only the default temperature. -/
theorem client_config_frame_witness :
    (generate testClient "p" none none 1024 1 0 false [] badRequestResponse).1 = testClient ∧
    (chat testClient [] none none 1024 1 0 false [] badRequestResponse).1 = testClient ∧
    (list_models testClient badRequestResponse).1 = testClient ∧
    (stream_response testClient (sampleStreamBody.map .line)).1 = testClient ∧
    (set_default_model testClient "deepseek-coder").default_model = "deepseek-coder" ∧
    (set_default_model testClient "deepseek-coder").headers = testClient.headers ∧
    ¬((0:ℚ) ≤ 5 ∧ (5:ℚ) ≤ 2) ∧
    (set_default_temperature testClient 5).1 = testClient ∧
    ((0:ℚ) ≤ 1 ∧ (1:ℚ) ≤ 2) ∧
    (set_default_temperature testClient 1).1.default_temperature = 1 ∧
    (set_default_temperature testClient 1).1.api_key = testClient.api_key :=
  ⟨(client_config_frame testClient).1 "p" none none 1024 1 0 false [] badRequestResponse,
   (client_config_frame testClient).2.1 [] none none 1024 1 0 false [] badRequestResponse,
   (client_config_frame testClient).2.2.1 badRequestResponse,
   (client_config_frame testClient).2.2.2.1 (sampleStreamBody.map .line),
   ((client_config_frame testClient).2.2.2.2.1 "deepseek-coder").1,
   ((client_config_frame testClient).2.2.2.2.1 "deepseek-coder").2.2.2.2.2,
   by norm_num,
   ((client_config_frame testClient).2.2.2.2.2 5).2.1 (by norm_num),
   ⟨by norm_num, by norm_num⟩,
   ((client_config_frame testClient).2.2.2.2.2 1).1 ⟨by norm_num, by norm_num⟩,
   ((client_config_frame testClient).2.2.2.2.2 1).2.2.1⟩

end DeepSeekClient
